import Mathlib

/-!
Shallow embedding of the chat-dashboard store of FerryF19999/chatinterface.

The embedding follows `src/api/index.js` (the relay/Pusher variant, which is
the variant carrying the full data model: `role` fields, the owner-call
endpoint) together with `src/server.js` where a claim cites it (the
agent-command busy/settle flow exists only in `src/server.js`).

Modelling conventions:
 * `uuidv4()` is modelled by a monotone counter `nextId` (ids are opaque and
   unique in the source; generation order is all that matters).
 * `new Date()` is modelled by a clock value `now` carried in the store.
 * JS arrays become `List`s: `push` appends at the tail, `unshift` prepends,
   `shift` drops the head, `pop` drops the last element,
   `slice(-n)` takes the last `n` elements, `slice(0, n)` takes the first `n`.
 * The `pusher.trigger` / `io.emit` calls are recorded in an event trace,
   in emission order.
-/

/-- A chat identity: one of the five agents or the owner user `ferry`.
Mirrors the records in `AGENTS` / `USERS` of `src/api/index.js`. -/
structure Participant where
  id : String
  name : String
  color : String
  avatar : String
  status : String
  lastActivity : Option Nat
  currentTask : Option String
  role : String
  isUser : Bool := false
  canManageAgents : Bool := false
  canCallAgents : Bool := false
deriving Repr, DecidableEq

/-- The open key/value bag attached to an activity (`metadata` in the JS
source); only the keys the source actually writes are modelled. -/
structure Metadata where
  messageId : Option Nat := none
  fromUser : Option String := none
  fromOwner : Option String := none
  params : Option String := none
  command : Option String := none
  responseId : Option Nat := none
  commandType : Option String := none
deriving Repr, DecidableEq

/-- A chat message, as built in `addMessage`. -/
structure Message where
  id : Nat
  fromAgentId : String
  toAgentId : Option String
  content : String
  messageType : String
  timestamp : Nat
  read : Bool
deriving Repr, DecidableEq

/-- An activity-log record, as built in `addActivity`. -/
structure Activity where
  id : Nat
  agentId : String
  type : String
  description : String
  timestamp : Nat
  metadata : Metadata
deriving Repr, DecidableEq

/-- One fan-out emission (`pusher.trigger` on the `dashboard` channel /
`io.emit(name, payload)`). -/
inductive Event where
  | chatMessage (m : Message)
  | activityNew (a : Activity)
  | agentUpdated (p : Participant)
  | chatRead (id : Nat)
deriving Repr, DecidableEq

/-- The in-memory store: `agentStates`, `chatMessages`, `activities`,
plus the id generator and the clock. `activities` is newest-first. -/
structure Store where
  agentStates : List Participant
  chatMessages : List Message
  activities : List Activity
  nextId : Nat
  now : Nat
deriving Repr, DecidableEq

/-- The static `USERS` roster: the single owner `ferry`. -/
def USERS : List Participant :=
  [{ id := "ferry", name := "Ferry", color := "#FFD700", avatar := "U",
     status := "online", lastActivity := none, currentTask := none,
     role := "owner", isUser := true,
     canManageAgents := true, canCallAgents := true }]

/-- One seed agent of the static `AGENTS` roster. -/
def mkAgent (id name color avatar : String) : Participant :=
  { id := id, name := name, color := color, avatar := avatar,
    status := "offline", lastActivity := none, currentTask := none,
    role := "agent" }

/-- The static `AGENTS` roster. -/
def AGENTS : List Participant :=
  [ mkAgent "yuri" "Yuri" "#FF6B6B" "Y",
    mkAgent "jarvis" "Jarvis" "#4ECDC4" "J",
    mkAgent "friday" "Friday" "#45B7D1" "F",
    mkAgent "glass" "Glass" "#96CEB4" "G",
    mkAgent "epstein" "Epstein" "#DDA0DD" "E" ]

/-- Process start: `agentStates` seeded from `AGENTS`, empty logs. -/
def initialStore : Store :=
  { agentStates := AGENTS, chatMessages := [], activities := [],
    nextId := 0, now := 0 }

/-- Lookup `USERS[senderId]`. -/
def findUser (senderId : String) : Option Participant :=
  USERS.find? (fun u => u.id = senderId)

/-- Lookup `agentStates[id]`. -/
def getAgent (s : Store) (id : String) : Option Participant :=
  s.agentStates.find? (fun a => a.id = id)

/-- Helper `getSenderInfo`: `USERS[senderId]` first, else `agentStates[senderId]`. -/
def getSenderInfo (s : Store) (senderId : String) : Option Participant :=
  match findUser senderId with
  | some u => some u
  | none => getAgent s senderId

/-- In-place field update of `agentStates[id]`: every participant whose id
matches is rewritten by `f` (ids are unique in the roster). -/
def updateAgent (s : Store) (id : String) (f : Participant → Participant) :
    Store :=
  { s with agentStates :=
      s.agentStates.map (fun p => if p.id = id then f p else p) }

/-- Embedding of `activities.unshift(a)` followed by
`if (activities.length > 100) activities.pop()`. -/
def capUnshift (cap : Nat) (a : Activity) (acts : List Activity) :
    List Activity :=
  let l := a :: acts
  if l.length > cap then l.dropLast else l

/-- Embedding of `chatMessages.push(m)` followed by
`if (chatMessages.length > 500) chatMessages.shift()`. -/
def capPush (cap : Nat) (m : Message) (msgs : List Message) : List Message :=
  let l := msgs ++ [m]
  if l.length > cap then l.drop 1 else l

/-- Function `addActivity` as in `src/server.js` lines 67–79 (the variant
without an emit inside): build the record, prepend with cap 100. -/
def addActivityCore (s : Store) (agentId ty desc : String) (md : Metadata) :
    Store × Activity :=
  let a : Activity :=
    { id := s.nextId, agentId := agentId, type := ty, description := desc,
      timestamp := s.now, metadata := md }
  ({ s with activities := capUnshift 100 a s.activities,
            nextId := s.nextId + 1 },
   a)

/-- Function `addMessage` as in `src/server.js` lines 81–101 (the variant
without an emit inside): build the record, append with cap 500, derive the
activity record via `addActivity`. Returns the new store, the message and
the derived activity. -/
def addMessageCore (s : Store) (fromAgentId : String) (toAgentId : Option String)
    (content messageType : String) : Store × Message × Activity :=
  let m : Message :=
    { id := s.nextId, fromAgentId := fromAgentId, toAgentId := toAgentId,
      content := content, messageType := messageType,
      timestamp := s.now, read := false }
  let s1 := { s with chatMessages := capPush 500 m s.chatMessages,
                     nextId := s.nextId + 1 }
  let senderName := ((getSenderInfo s1 fromAgentId).map (fun p => p.name)).getD fromAgentId
  let targetName :=
    match toAgentId with
    | some t => ((getSenderInfo s1 t).map (fun p => p.name)).getD t
    | none => "everyone"
  let r := addActivityCore s1 fromAgentId "message"
      (senderName ++ " sent message to " ++ targetName)
      { messageId := some m.id }
  (r.1, m, r.2)

/-- Function `addActivity` of `src/api/index.js` lines 59–75: same mutation
as the core, followed by a `pusher.trigger` of `activity:new` with `a`. -/
def addActivity (s : Store) (agentId ty desc : String) (md : Metadata) :
    Store × Activity × List Event :=
  let r := addActivityCore s agentId ty desc md
  (r.1, r.2, [Event.activityNew r.2])

/-- Function `addMessage` of `src/api/index.js` lines 77–100: same mutation
as the core; the inner `addActivity` triggers `activity:new`, and only then
does `addMessage` trigger `chat:message`. The emission trace records that
order. -/
def addMessage (s : Store) (fromAgentId : String) (toAgentId : Option String)
    (content messageType : String) : Store × Message × List Event :=
  let r := addMessageCore s fromAgentId toAgentId content messageType
  (r.1, r.2.1, [Event.activityNew r.2.2, Event.chatMessage r.2.1])

/-- Outcome of the status-update route (`PUT /api/agents/:id/status`). -/
inductive StatusResult where
  | notFound
  | ok (p : Participant)
deriving Repr, DecidableEq

/-- Route `PUT /api/agents/:id/status` of `src/api/index.js` lines 243–263
(identical to the `agent:status` socket handler of `src/server.js` lines
305–318 up to transport). `status` is absent (`none`) or a string, where the
JS truthiness test `if (status)` also rejects the empty string; `task`
distinguishes absent (`none`), null (`some none`) and a string
(`some (some t)`), matching `if (task !== undefined)`; the activity is queued
only `if (task)`, i.e. when the task is a non-empty string. -/
def setStatus (s : Store) (id : String) (status : Option String)
    (task : Option (Option String)) : Store × StatusResult × List Event :=
  match getAgent s id with
  | none => (s, .notFound, [])
  | some p0 =>
    let upd := fun (p : Participant) =>
      let p1 := match status with
        | some st => if st = "" then p else { p with status := st }
        | none => p
      let p2 := match task with
        | some t => { p1 with currentTask := t }
        | none => p1
      { p2 with lastActivity := some s.now }
    let s1 := updateAgent s id upd
    let pu := upd p0
    match task with
    | some (some t) =>
      if t = "" then (s1, .ok pu, [Event.agentUpdated pu])
      else
        let r := addActivity s1 id "task" ("Working on: " ++ t) {}
        (r.1, .ok pu, r.2.2 ++ [Event.agentUpdated pu])
    | _ => (s1, .ok pu, [Event.agentUpdated pu])

/-- Outcome of the message-posting route (`POST /api/messages`). -/
inductive PostResult where
  | invalidSender
  | created (m : Message)
deriving Repr, DecidableEq

/-- True exactly when the posting route accepted the request. -/
def PostResult.isCreated : PostResult → Bool
  | .created _ => true
  | .invalidSender => false

/-- Route `POST /api/messages` of `src/api/index.js` lines 295–305: a 400
`Invalid fromAgentId` unless the sender is a known agent or a known user;
otherwise `addMessage` runs unconditionally (the request `content` is passed
through with no emptiness check). -/
def postMessage (s : Store) (fromAgentId : String) (toAgentId : Option String)
    (content messageType : String) : Store × PostResult × List Event :=
  if (getAgent s fromAgentId).isSome ∨ (findUser fromAgentId).isSome then
    let r := addMessage s fromAgentId toAgentId content messageType
    (r.1, .created r.2.1, r.2.2)
  else
    (s, .invalidSender, [])

/-- Outcome of a command-dispatch route. -/
inductive CallResult where
  | badRequest
  | forbidden
  | notFound
  | accepted (callId : Nat)
deriving Repr, DecidableEq

/-- Route `POST /api/owner/call-agent` of `src/api/index.js` lines 333–386,
synchronous part (the request/response phase; the asynchronous AI settle is
separate). Checks, in source order: required fields (`!agentId || !command`,
JS falsiness so the empty string also fails), then the owner role
(a 403 unless `USERS[ownerId]` exists with role `owner`), then
agent existence; only then are the command activity and the owner-call
message recorded. -/
def dispatchOwnerCommand (s : Store) (agentId command : String)
    (params : Option String) (ownerId : String) :
    Store × CallResult × List Event :=
  if agentId = "" ∨ command = "" then (s, .badRequest, [])
  else
    match findUser ownerId with
    | none => (s, .forbidden, [])
    | some owner =>
      if owner.role = "owner" then
        match getAgent s agentId with
        | none => (s, .notFound, [])
        | some _ =>
          let r1 := addActivity s agentId "command"
              ("📞 Owner " ++ owner.name ++ " called with: " ++ command)
              { fromOwner := some ownerId, params := params,
                commandType := some "owner-call" }
          let callText :=
            ("📞 /call " ++ agentId ++ ": " ++ command ++ " "
              ++ params.getD "").trim
          let r2 := addMessage r1.1 ownerId (some agentId) callText "owner-call"
          (r2.1, .accepted r2.2.1.id, r1.2.2 ++ r2.2.2)
      else (s, .forbidden, [])

/-- Route `POST /api/agent-command` of `src/server.js` lines 438–510,
synchronous part: field and agent checks, the command activity and command
message (via the emit-free core helpers), the handler-level emits
`io.emit` of `chat:message` with the command message, then `io.emit` of
`activity:new` with `activities[0]`, and the head of the async block
(which runs up to its first await): the agent status is set to `busy` with
`currentTask` set to `Processing command from <userId>`, and `agent:updated`
is emitted. -/
def agentCommandStart (s : Store) (agentId command : String)
    (params : Option String) (userId : String) :
    Store × CallResult × List Event :=
  if agentId = "" ∨ command = "" then (s, .badRequest, [])
  else
    match getAgent s agentId with
    | none => (s, .notFound, [])
    | some p0 =>
      let r1 := addActivityCore s agentId "command"
          ("Received command from " ++ userId ++ ": " ++ command)
          { fromUser := some userId, params := params }
      let cmdText :=
        ("/" ++ agentId ++ " " ++ command ++ " " ++ params.getD "").trim
      let r2 := addMessageCore r1.1 userId (some agentId) cmdText "command"
      let upd := fun (p : Participant) =>
        { p with status := "busy",
                 currentTask := some ("Processing command from " ++ userId) }
      let s3 := updateAgent r2.1 agentId upd
      (s3, .accepted r2.2.1.id,
       [Event.chatMessage r2.2.1, Event.activityNew r2.2.2,
        Event.agentUpdated (upd p0)])

/-- Success path of the async block of `POST /api/agent-command`
(`src/server.js` lines 466–503) once `callOpenClawAgent` resolves with
`aiResponse` (the gateway masks its own failures into a fallback string, so
this is also the fallback path): record the response message, emit
`chat:message`, record the `Responded to ...` activity, emit `activity:new`,
then set the agent status to `online`, clear `currentTask`, stamp
`lastActivity`, and emit `agent:updated`. -/
def agentCommandSettle (s : Store) (agentId userId command aiResponse : String) :
    Store × List Event :=
  let r1 := addMessageCore s agentId (some userId) aiResponse "text"
  let r2 := addActivityCore r1.1 agentId "message"
      ("Responded to " ++ userId ++ "\u0027s command")
      { command := some command, responseId := some r1.2.1.id }
  let upd := fun (p : Participant) =>
    { p with status := "online", currentTask := none,
             lastActivity := some s.now }
  let s3 := updateAgent r2.1 agentId upd
  (s3,
   [Event.chatMessage r1.2.1, Event.activityNew r2.2]
     ++ (match getAgent s agentId with
         | some q => [Event.agentUpdated (upd q)]
         | none => []))

/-- JS `l.slice(-n)` for `n ≥ 1`: the last `n` elements. -/
def lastN (n : Nat) (l : List α) : List α := l.drop (l.length - n)

/-- Route `GET /api/messages`: optional participant filter (sender, direct
recipient, or broadcast), then `messages.slice(-limit)` (the JS quirk
`slice(-0)` returns the whole list). -/
def listMessages (s : Store) (limit : Nat) (agentId : Option String) :
    List Message :=
  let msgs := match agentId with
    | some aid => s.chatMessages.filter
        (fun m => m.fromAgentId = aid ∨ m.toAgentId = some aid ∨ m.toAgentId = none)
    | none => s.chatMessages
  if limit = 0 then msgs else lastN limit msgs

/-- Route `GET /api/activities`: `activities.slice(0, limit)`. -/
def listActivities (s : Store) (limit : Nat) : List Activity :=
  s.activities.take limit

/-- Payload of the `init` snapshot. -/
structure InitSnapshot where
  agents : List Participant
  users : List Participant
  messages : List Message
  activities : List Activity
deriving Repr, DecidableEq

/-- The `init` payload, identical in `GET /api/init` (`src/api/index.js`
lines 195–204) and the socket `connection` handler (`src/server.js` lines
264–270): all agents, all users, `chatMessages.slice(-50)` and
`activities.slice(-20)`. -/
def getInit (s : Store) : InitSnapshot :=
  { agents := s.agentStates, users := USERS,
    messages := lastN 50 s.chatMessages,
    activities := lastN 20 s.activities }

/-- Set `read := true` on the first message whose id matches (the JS
`chatMessages.find(m => m.id === messageId)` followed by `msg.read = true`
mutates exactly that element). -/
def setReadFirst : List Message → Nat → List Message
  | [], _ => []
  | m :: rest, mid =>
    if m.id = mid then { m with read := true } :: rest
    else m :: setReadFirst rest mid

/-- Route `PUT /api/messages/:id/read` (`src/api/index.js` lines 308–317),
identical to the `chat:read` socket handler: find the message, and when
found set its read flag and emit `chat:read`; a miss is a 404 with no
mutation. The Bool reports whether the message was found. -/
def markMessageRead (s : Store) (mid : Nat) : Store × Bool × List Event :=
  match s.chatMessages.find? (fun m => m.id = mid) with
  | some _ =>
    ({ s with chatMessages := setReadFirst s.chatMessages mid },
     true, [Event.chatRead mid])
  | none => (s, false, [])

/-- Arguments of one `addMessage` call. -/
structure SendReq where
  fromAgentId : String
  toAgentId : Option String
  content : String
  messageType : String
deriving Repr, DecidableEq

/-- A sequence of message sends applied to the store. -/
def applySends (s : Store) (reqs : List SendReq) : Store :=
  reqs.foldl
    (fun st r => (addMessage st r.fromAgentId r.toAgentId r.content r.messageType).1)
    s

/-- Arguments of one `addActivity` call. -/
structure ActReq where
  agentId : String
  type : String
  description : String
  metadata : Metadata
deriving Repr, DecidableEq

/-- A sequence of activity appends applied to the store; every mutating
operation of the source funnels its activity append through `addActivity`
(`addActivityCore`), so this covers the activity-log effect of any sequence
of mutating operations. -/
def applyActs (s : Store) (reqs : List ActReq) : Store :=
  reqs.foldl
    (fun st r => (addActivityCore st r.agentId r.type r.description r.metadata).1)
    s

/-- True on `message-new` (`chat:message`) events. -/
def isMsgNew : Event → Bool
  | .chatMessage _ => true
  | _ => false

/-- True on `activity-new` events. -/
def isActNew : Event → Bool
  | .activityNew _ => true
  | _ => false

/-- True when some `message-new` event occurs strictly before some
`activity-new` event in the emission trace: the order C1 claims for a
message send. -/
def msgBeforeAct : List Event → Bool
  | [] => false
  | e :: rest => (isMsgNew e && rest.any isActNew) || msgBeforeAct rest

/-- A workload of 21 identical activity appends, used to exercise the init
snapshot on an activity log longer than the 20-entry init window. -/
def c9Reqs : List ActReq :=
  List.replicate 21
    { agentId := "yuri", type := "task", description := "d", metadata := {} }

/-! ## Helper lemmas -/

theorem addMessage_chatMessages_eq (s : Store) (f : String) (t : Option String)
    (c k : String) :
    (addMessage s f t c k).1.chatMessages
      = capPush 500 (addMessage s f t c k).2.1 s.chatMessages := rfl

theorem capPush_step (m : Message) (l : List Message) :
    capPush 500 m l
      = if l.length < 500 then l ++ [m] else l.drop 1 ++ [m] := by
  simp only [capPush]
  rcases Nat.lt_or_ge l.length 500 with h | h
  · rw [if_neg (by simp only [List.length_append, List.length_cons,
      List.length_nil]; omega), if_pos h]
  · rw [if_pos (by simp only [List.length_append, List.length_cons,
      List.length_nil]; omega), if_neg (by omega),
      List.drop_append_of_le_length (by omega)]

theorem capPush_length_le (m : Message) (l : List Message)
    (h : l.length ≤ 500) : (capPush 500 m l).length ≤ 500 := by
  rw [capPush_step]
  split
  · simp only [List.length_append, List.length_cons, List.length_nil]; omega
  · simp only [List.length_append, List.length_cons, List.length_nil,
      List.length_drop]; omega

theorem applySends_length_le (reqs : List SendReq) (s : Store)
    (h : s.chatMessages.length ≤ 500) :
    (applySends s reqs).chatMessages.length ≤ 500 := by
  induction reqs generalizing s with
  | nil => exact h
  | cons r rs ih =>
    simp only [applySends, List.foldl_cons]
    exact ih _ (by rw [addMessage_chatMessages_eq]; exact capPush_length_le _ _ h)

theorem listMessages_sublist (s : Store) (lim : Nat) (aid : Option String) :
    List.Sublist (listMessages s lim aid) s.chatMessages := by
  have hbase : ∀ (msgs : List Message), List.Sublist msgs s.chatMessages →
      List.Sublist (if lim = 0 then msgs else msgs.drop (msgs.length - lim))
        s.chatMessages := by
    intro msgs hm
    split
    · exact hm
    · exact (List.drop_sublist _ _).trans hm
  unfold listMessages lastN
  cases aid
  · exact hbase _ (List.Sublist.refl _)
  · exact hbase _ (List.filter_sublist _)

theorem addActivityCore_activities_eq (s : Store) (aid ty d : String)
    (md : Metadata) :
    (addActivityCore s aid ty d md).1.activities
      = capUnshift 100 (addActivityCore s aid ty d md).2 s.activities := rfl

theorem capUnshift_step (a : Activity) (l : List Activity) :
    capUnshift 100 a l
      = if l.length < 100 then a :: l else (a :: l).dropLast := by
  simp only [capUnshift]
  rcases Nat.lt_or_ge l.length 100 with h | h
  · rw [if_neg (by simp only [List.length_cons]; omega), if_pos h]
  · rw [if_pos (by simp only [List.length_cons]; omega), if_neg (by omega)]

theorem applyActs_inv (reqs : List ActReq) (s : Store)
    (h1 : s.activities.length ≤ 100)
    (h2 : ∀ a ∈ s.activities, a.id < s.nextId)
    (h3 : s.activities.Pairwise (fun x y => y.id < x.id)) :
    (applyActs s reqs).activities.length ≤ 100
    ∧ (∀ a ∈ (applyActs s reqs).activities, a.id < (applyActs s reqs).nextId)
    ∧ (applyActs s reqs).activities.Pairwise (fun x y => y.id < x.id) := by
  induction reqs generalizing s with
  | nil => exact ⟨h1, h2, h3⟩
  | cons r rs ih =>
    simp only [applyActs, List.foldl_cons]
    apply ih
    · rw [addActivityCore_activities_eq, capUnshift_step]
      split
      · simp only [List.length_cons]; omega
      · simp only [List.length_dropLast, List.length_cons]; omega
    · intro a ha
      rw [addActivityCore_activities_eq, capUnshift_step] at ha
      have hmem : a ∈ (addActivityCore s r.agentId r.type r.description r.metadata).2 :: s.activities := by
        split at ha
        · exact ha
        · exact (List.dropLast_sublist _).mem ha
      rcases List.mem_cons.mp hmem with h | h
      · subst h; exact Nat.lt_succ_self _
      · exact Nat.lt_succ_of_lt (h2 _ h)
    · rw [addActivityCore_activities_eq, capUnshift_step]
      have hp : ((addActivityCore s r.agentId r.type r.description r.metadata).2
          :: s.activities).Pairwise (fun x y => y.id < x.id) := by
        exact List.Pairwise.cons (fun a ha => h2 a ha) h3
      split
      · exact hp
      · exact hp.sublist (List.dropLast_sublist _)

theorem dropLast_head_cons (a : Activity) (l : List Activity) (h : l ≠ []) :
    ((a :: l).dropLast).head? = some a := by
  cases l with
  | nil => exact absurd rfl h
  | cons b l2 => rfl

/-! ## Claim theorems -/

/-- C1, counterexample: for a concrete message send through the relay
variant, the emission trace contains both a `message-new` and an
`activity-new` event, yet no `message-new` occurs before any `activity-new`
— the claimed fan-out order (message first, then activity) is false for
this send. -/
theorem C1_counterexample :
    msgBeforeAct (addMessage initialStore "ferry" none "hello" "text").2.2 = false
    ∧ ((addMessage initialStore "ferry" none "hello" "text").2.2).any isMsgNew = true
    ∧ ((addMessage initialStore "ferry" none "hello" "text").2.2).any isActNew = true := by
  decide

/-- C1, amended: for every message send through `addMessage`, the store fans
out the correlated `activity-new` event first and the `message-new` event
second — the emission trace is exactly the two-element list with the derived
activity (whose metadata references the new message id) before the message. -/
theorem C1_amended (s : Store) (f : String) (t : Option String) (c k : String) :
    ∃ a m, (addMessage s f t c k).2.2 = [Event.activityNew a, Event.chatMessage m]
      ∧ (addMessage s f t c k).2.1 = m
      ∧ a.metadata.messageId = some m.id :=
  ⟨(addMessageCore s f t c k).2.2, (addMessageCore s f t c k).2.1, rfl, rfl, rfl⟩

/-- C2: every message send through `addMessage` appends exactly one new
activity entry — the resulting activity log is the old one with a single new
record prepended (evicting at the cap of 100), that record is the new head,
and its metadata references the id of the message that was just created. -/
theorem C2_send_one_activity (s : Store) (f : String) (t : Option String)
    (c k : String) :
    ∃ a : Activity,
      a.metadata.messageId = some ((addMessage s f t c k).2.1).id
      ∧ (addMessage s f t c k).1.activities = capUnshift 100 a s.activities
      ∧ ((addMessage s f t c k).1.activities).head? = some a := by
  refine ⟨(addMessageCore s f t c k).2.2, rfl, rfl, ?_⟩
  show (capUnshift 100 (addMessageCore s f t c k).2.2 s.activities).head? = some _
  rw [capUnshift_step]
  split
  · rfl
  · rename_i h
    cases hs : s.activities with
    | nil => rw [hs] at h; simp at h
    | cons b l2 => rfl

/-- C3, counterexample: posting a whitespace-only message from the owner via
`POST /api/messages` does not fail — there is no `EmptyContent` check — and
it appends one message to the message log and one entry to the activity
log. -/
theorem C3_counterexample :
    ("   ".toList.all (fun ch => ch.isWhitespace) = true)
    ∧ ((postMessage initialStore "ferry" none "   " "text").2.1).isCreated = true
    ∧ (postMessage initialStore "ferry" none "   " "text").1.chatMessages.length = 1
    ∧ (postMessage initialStore "ferry" none "   " "text").1.activities.length = 1 := by
  refine ⟨by decide, by decide, by decide, by decide⟩

/-- C3, amended: posting a message whose content is empty or whitespace-only
after trimming from any valid sender always succeeds: the content is stored
verbatim, the message is appended to the message log (with cap eviction) and
exactly one correlated activity entry is produced. -/
theorem C3_amended (s : Store) (f : String) (t : Option String) (c k : String)
    (_hc : c.toList.all (fun ch => ch.isWhitespace) = true)
    (hs : (getAgent s f).isSome ∨ (findUser f).isSome) :
    ∃ m a,
      (postMessage s f t c k).2.1 = PostResult.created m
      ∧ m.content = c
      ∧ (postMessage s f t c k).1.chatMessages = capPush 500 m s.chatMessages
      ∧ (postMessage s f t c k).1.activities = capUnshift 100 a s.activities
      ∧ a.metadata.messageId = some m.id := by
  refine ⟨(addMessageCore s f t c k).2.1, (addMessageCore s f t c k).2.2,
    ?_, rfl, ?_, ?_, rfl⟩
  · unfold postMessage; rw [if_pos hs]; rfl
  · unfold postMessage; rw [if_pos hs]; rfl
  · unfold postMessage; rw [if_pos hs]; rfl

/-- C3, witness for the amended theorem at a concrete whitespace-only send
from the owner. -/
theorem C3_amended_witness :
    ("  ".toList.all (fun ch => ch.isWhitespace) = true
      ∧ ((getAgent initialStore "ferry").isSome ∨ (findUser "ferry").isSome))
    ∧ ∃ m a,
      (postMessage initialStore "ferry" none "  " "text").2.1 = PostResult.created m
      ∧ m.content = "  "
      ∧ (postMessage initialStore "ferry" none "  " "text").1.chatMessages
          = capPush 500 m initialStore.chatMessages
      ∧ (postMessage initialStore "ferry" none "  " "text").1.activities
          = capUnshift 100 a initialStore.activities
      ∧ a.metadata.messageId = some m.id :=
  ⟨⟨by decide, by decide⟩,
   C3_amended initialStore "ferry" none "  " "text" (by decide) (by decide)⟩

/-- C4, counterexample: give `yuri` a task, then set the status to `offline`
through the status-update operation with no task field: the status becomes
`offline` but `current_task` keeps its prior value instead of becoming
null. -/
theorem C4_counterexample :
    ((getAgent ((setStatus ((setStatus initialStore "yuri" (some "online")
          (some (some "Deploy"))).1) "yuri" (some "offline") none).1) "yuri").map
        (fun p => (p.status, p.currentTask))
      = some ("offline", some "Deploy"))
    ∧ ¬ ((getAgent ((setStatus ((setStatus initialStore "yuri" (some "online")
          (some (some "Deploy"))).1) "yuri" (some "offline") none).1) "yuri").map
        (fun p => p.currentTask)
      = some none) := by
  refine ⟨by decide, by decide⟩

/-- C4, amended: setting a status to `offline` through the status-update
operation with no task field never clears `current_task`: every
participant keeps exactly the task value it had before (the source clears
the task only in the logout and disconnect handlers). -/
theorem C4_amended (s : Store) (id : String) :
    ((setStatus s id (some "offline") none).1).agentStates.map
        (fun p => p.currentTask)
      = s.agentStates.map (fun p => p.currentTask) := by
  unfold setStatus
  cases h : getAgent s id with
  | none => rfl
  | some p0 =>
    simp only [updateAgent, List.map_map]
    apply List.map_congr_left
    intro p _
    by_cases hid : p.id = id <;> simp [hid]

/-- C5: an owner-only dispatch by any caller whose looked-up role is not
`owner` performs zero store mutations — the store is returned unchanged and
nothing is emitted — and, whenever the required fields are present, the
result is `Forbidden`; the role check runs before any log entry is
created. -/
theorem C5_forbidden (s : Store) (agentId command : String)
    (params : Option String) (ownerId : String)
    (h : ∀ u, findUser ownerId = some u → ¬ u.role = "owner") :
    ((dispatchOwnerCommand s agentId command params ownerId).1 = s)
    ∧ ((dispatchOwnerCommand s agentId command params ownerId).2.2 = [])
    ∧ (¬ agentId = "" → ¬ command = "" →
        (dispatchOwnerCommand s agentId command params ownerId).2.1
          = CallResult.forbidden) := by
  unfold dispatchOwnerCommand
  by_cases hac : agentId = "" ∨ command = ""
  · rw [if_pos hac]
    exact ⟨rfl, rfl, fun h1 h2 => absurd hac (by tauto)⟩
  · rw [if_neg hac]
    cases hu : findUser ownerId with
    | none => exact ⟨rfl, rfl, fun _ _ => rfl⟩
    | some owner =>
      dsimp only
      rw [if_neg (h owner hu)]
      exact ⟨rfl, rfl, fun _ _ => rfl⟩

/-- C5, witness: the agent `yuri` (not in `USERS`, hence without the owner
role) attempting an owner call against `glass` is rejected with `Forbidden`
and mutates nothing. -/
theorem C5_forbidden_witness :
    (∀ u, findUser "yuri" = some u → ¬ u.role = "owner")
    ∧ ((dispatchOwnerCommand initialStore "glass" "hi" none "yuri").1
        = initialStore)
    ∧ ((dispatchOwnerCommand initialStore "glass" "hi" none "yuri").2.2 = [])
    ∧ ((dispatchOwnerCommand initialStore "glass" "hi" none "yuri").2.1
        = CallResult.forbidden) := by
  have h : ∀ u, findUser "yuri" = some u → ¬ u.role = "owner" := by
    intro u hu
    rw [show findUser "yuri" = none by decide] at hu
    exact absurd hu (by simp)
  have r := C5_forbidden initialStore "glass" "hi" none "yuri" h
  exact ⟨h, r.1, r.2.1, r.2.2 (by decide) (by decide)⟩

/-- C6: over every sequence of message sends from process start, the message
log never exceeds the cap of 500; the next send appends at the tail and,
exactly when the log is full, evicts the head (the oldest entry — FIFO);
and `listMessages` always returns a sublist of the current log, hence never
an evicted entry. -/
theorem C6_message_log_bounded (reqs : List SendReq) (f : String)
    (t : Option String) (c k : String) (lim : Nat) (aid : Option String) :
    ((applySends initialStore reqs).chatMessages.length ≤ 500)
    ∧ ((addMessage (applySends initialStore reqs) f t c k).1.chatMessages
        = if (applySends initialStore reqs).chatMessages.length < 500
          then (applySends initialStore reqs).chatMessages
                ++ [(addMessage (applySends initialStore reqs) f t c k).2.1]
          else (applySends initialStore reqs).chatMessages.drop 1
                ++ [(addMessage (applySends initialStore reqs) f t c k).2.1])
    ∧ List.Sublist (listMessages (applySends initialStore reqs) lim aid)
        (applySends initialStore reqs).chatMessages := by
  refine ⟨applySends_length_le reqs initialStore (by decide), ?_, listMessages_sublist _ _ _⟩
  rw [addMessage_chatMessages_eq, capPush_step]

/-- C7: over every sequence of activity appends from process start (every
mutating operation funnels its activity append through `addActivity`), the
activity log never exceeds the cap of 100; the next append prepends the new
entry and, exactly when the log is full, evicts the last element of the
newest-first list (the oldest entry by insertion order); `listActivities`
returns the prefix of the newest-first log, whose ids — assigned in
generation order — are strictly decreasing, i.e. newest-first. -/
theorem C7_activity_log_bounded (reqs : List ActReq) (aid ty d : String)
    (md : Metadata) (lim : Nat) :
    ((applyActs initialStore reqs).activities.length ≤ 100)
    ∧ ((addActivityCore (applyActs initialStore reqs) aid ty d md).1.activities
        = if (applyActs initialStore reqs).activities.length < 100
          then (addActivityCore (applyActs initialStore reqs) aid ty d md).2
                 :: (applyActs initialStore reqs).activities
          else ((addActivityCore (applyActs initialStore reqs) aid ty d md).2
                 :: (applyActs initialStore reqs).activities).dropLast)
    ∧ (listActivities (applyActs initialStore reqs) lim
        = (applyActs initialStore reqs).activities.take lim)
    ∧ (listActivities (applyActs initialStore reqs) lim).Pairwise
        (fun x y => y.id < x.id) := by
  have hinv := applyActs_inv reqs initialStore (by decide)
    (by intro a ha; simp [initialStore] at ha) (by simp [initialStore])
  refine ⟨hinv.1, ?_, rfl, ?_⟩
  · rw [addActivityCore_activities_eq, capUnshift_step]
  · exact hinv.2.2.sublist (List.take_sublist _ _)

theorem find_map_update (l : List Participant) (id : String)
    (f : Participant → Participant) (hf : ∀ p, (f p).id = p.id) :
    (l.map (fun p => if p.id = id then f p else p)).find? (fun p => p.id = id)
      = (l.find? (fun p => p.id = id)).map f := by
  induction l with
  | nil => rfl
  | cons a l ih =>
    by_cases h : a.id = id
    · simp [List.find?_cons, h, hf a]
    · simp [List.find?_cons, h, ih]

theorem getAgent_updateAgent_of (s : Store) (id : String)
    (f : Participant → Participant) (hf : ∀ p, (f p).id = p.id) :
    getAgent (updateAgent s id f) id = (getAgent s id).map f :=
  find_map_update s.agentStates id f hf

theorem getAgent_addActivityCore (s : Store) (aid ty d : String)
    (md : Metadata) (id : String) :
    getAgent (addActivityCore s aid ty d md).1 id = getAgent s id := rfl

theorem getAgent_addMessageCore (s : Store) (f : String) (t : Option String)
    (c k : String) (id : String) :
    getAgent (addMessageCore s f t c k).1 id = getAgent s id := rfl

/-- C8, counterexample: dispatch a command to `yuri` whose pre-call status is
`offline`; while the call is outstanding the status is `busy` with the
invoking user in `current_task`, but once the call settles the status is
`online` — not the pre-call value `offline`. -/
theorem C8_counterexample :
    ((getAgent initialStore "yuri").map (fun p => p.status) = some "offline")
    ∧ ((getAgent (agentCommandStart initialStore "yuri" "ping" none "ferry").1
          "yuri").map (fun p => (p.status, p.currentTask))
        = some ("busy", some "Processing command from ferry"))
    ∧ ((getAgent (agentCommandSettle
          (agentCommandStart initialStore "yuri" "ping" none "ferry").1
          "yuri" "ferry" "ping" "pong").1 "yuri").map
          (fun p => (p.status, p.currentTask))
        = some ("online", none))
    ∧ ¬ ((getAgent (agentCommandSettle
          (agentCommandStart initialStore "yuri" "ping" none "ferry").1
          "yuri" "ferry" "ping" "pong").1 "yuri").map (fun p => p.status)
        = (getAgent initialStore "yuri").map (fun p => p.status)) := by
  refine ⟨by decide, by decide, by decide, by decide⟩

/-- C8, amended: for every dispatch against a known agent, while the gateway
call is outstanding the agent is `busy` with the invoking user named in
`current_task`, and once the call settles the status is set to `online`
(not restored to its pre-call value) with `current_task` cleared. -/
theorem C8_amended (s : Store) (agentId command userId resp : String)
    (params : Option String) (p0 : Participant)
    (ha : ¬ agentId = "") (hc : ¬ command = "")
    (hp : getAgent s agentId = some p0) :
    ((getAgent (agentCommandStart s agentId command params userId).1
        agentId).map (fun p => (p.status, p.currentTask))
      = some ("busy", some ("Processing command from " ++ userId)))
    ∧ ((getAgent (agentCommandSettle
          (agentCommandStart s agentId command params userId).1
          agentId userId command resp).1 agentId).map
        (fun p => (p.status, p.currentTask))
      = some ("online", none)) := by
  have hstart : getAgent (agentCommandStart s agentId command params userId).1
      agentId
      = some
          { p0 with
            status := "busy",
            currentTask := some ("Processing command from " ++ userId) } := by
    unfold agentCommandStart
    rw [if_neg (by tauto)]
    rw [hp]
    dsimp only
    rw [getAgent_updateAgent_of]
    · rw [getAgent_addMessageCore, getAgent_addActivityCore, hp]
      rfl
    · intro p
      rfl
  constructor
  · rw [hstart]
    rfl
  · unfold agentCommandSettle
    dsimp only
    rw [getAgent_updateAgent_of]
    · rw [getAgent_addActivityCore, getAgent_addMessageCore, hstart]
      rfl
    · intro p
      rfl

/-- C8, witness for the amended theorem: a concrete dispatch to `yuri`. -/
theorem C8_amended_witness :
    ((¬ "yuri" = "") ∧ (¬ "st" = "")
      ∧ getAgent initialStore "yuri" = some (mkAgent "yuri" "Yuri" "#FF6B6B" "Y"))
    ∧ ((getAgent (agentCommandStart initialStore "yuri" "st" none "ferry").1
          "yuri").map (fun p => (p.status, p.currentTask))
        = some ("busy", some ("Processing command from " ++ "ferry")))
    ∧ ((getAgent (agentCommandSettle
          (agentCommandStart initialStore "yuri" "st" none "ferry").1
          "yuri" "ferry" "st" "ok").1 "yuri").map
          (fun p => (p.status, p.currentTask))
        = some ("online", none)) :=
  ⟨⟨by decide, by decide, by decide⟩,
   C8_amended initialStore "yuri" "st" "ferry" "ok" none
     (mkAgent "yuri" "Yuri" "#FF6B6B" "Y") (by decide) (by decide) (by decide)⟩

/-- C9, theorem for the code bug: after 21 activity appends the init
snapshot contains the 20 oldest activities (the tail of the newest-first
log, dropping the newest entry), which differs from the 20 newest entries
that `listActivities` returns — the init snapshot is not consistent with
`listActivities`. -/
theorem C9_init_activities_divergence :
    ((getInit (applyActs initialStore c9Reqs)).activities
      ≠ listActivities (applyActs initialStore c9Reqs) 20)
    ∧ ((getInit (applyActs initialStore c9Reqs)).activities
        = (applyActs initialStore c9Reqs).activities.drop 1)
    ∧ (listActivities (applyActs initialStore c9Reqs) 20
        = (applyActs initialStore c9Reqs).activities.take 20) := by
  refine ⟨by decide, by decide, by decide⟩

theorem setReadFirst_cons (m : Message) (rest : List Message) (mid : Nat) :
    setReadFirst (m :: rest) mid
      = if m.id = mid then { m with read := true } :: rest
        else m :: setReadFirst rest mid := rfl

theorem setReadFirst_length (l : List Message) (mid : Nat) :
    (setReadFirst l mid).length = l.length := by
  induction l with
  | nil => rfl
  | cons m rest ih =>
    rw [setReadFirst_cons]
    split
    · simp
    · simp [ih]

theorem setReadFirst_get (l : List Message) (mid : Nat) (i : Nat) :
    (setReadFirst l mid).get? i = l.get? i
    ∨ ∃ m, l.get? i = some m ∧ m.id = mid
        ∧ (setReadFirst l mid).get? i = some { m with read := true } := by
  induction l generalizing i with
  | nil => left; rfl
  | cons a rest ih =>
    rw [setReadFirst_cons]
    by_cases h : a.id = mid
    · rw [if_pos h]
      cases i with
      | zero => right; exact ⟨a, rfl, h, rfl⟩
      | succ n => left; rfl
    · rw [if_neg h]
      cases i with
      | zero => left; rfl
      | succ n =>
        rcases ih n with h1 | ⟨m, hm1, hm2, hm3⟩
        · left; exact h1
        · right; exact ⟨m, hm1, hm2, hm3⟩

theorem setReadFirst_find (l : List Message) (mid : Nat) (m : Message)
    (h : l.find? (fun x => x.id = mid) = some m) :
    (setReadFirst l mid).find? (fun x => x.id = mid)
      = some { m with read := true } := by
  induction l with
  | nil => simp [List.find?] at h
  | cons a rest ih =>
    rw [setReadFirst_cons]
    by_cases ha : a.id = mid
    · rw [if_pos ha]
      have h2 : a = m := by simpa [List.find?_cons, ha] using h
      subst h2
      simp [List.find?_cons, ha]
    · rw [if_neg ha]
      have hb : (decide (a.id = mid)) = false := by simp [ha]
      simp only [List.find?_cons, hb] at h ⊢
      exact ih h

theorem setReadFirst_idem (l : List Message) (mid : Nat) :
    setReadFirst (setReadFirst l mid) mid = setReadFirst l mid := by
  induction l with
  | nil => rfl
  | cons a rest ih =>
    rw [setReadFirst_cons]
    by_cases h : a.id = mid
    · rw [if_pos h, setReadFirst_cons,
        if_pos (show ({ a with read := true } : Message).id = mid from h)]
    · rw [if_neg h, setReadFirst_cons, if_neg h, ih]

theorem markMessageRead_eq_none (s : Store) (mid : Nat)
    (hf : s.chatMessages.find? (fun x => x.id = mid) = none) :
    markMessageRead s mid = (s, false, []) := by
  unfold markMessageRead
  rw [hf]

theorem markMessageRead_eq_some (s : Store) (mid : Nat) (m0 : Message)
    (hf : s.chatMessages.find? (fun x => x.id = mid) = some m0) :
    markMessageRead s mid
      = ({ s with chatMessages := setReadFirst s.chatMessages mid }, true,
         [Event.chatRead mid]) := by
  unfold markMessageRead
  rw [hf]

/-- C10: marking a message read changes nothing in the store except the read
flag of the first message with the given id: participants, activities, the
id generator and the clock are untouched (in particular no activity entry is
created), the message count is preserved, every position of the message log
is either unchanged or holds the target message with only its read flag set,
the message found under the given id afterwards is the original record with
read set to true, and applying the operation twice gives the same store as
applying it once. -/
theorem C10_mark_read_frame (s : Store) (mid : Nat) :
    ((markMessageRead s mid).1.agentStates = s.agentStates)
    ∧ ((markMessageRead s mid).1.activities = s.activities)
    ∧ ((markMessageRead s mid).1.nextId = s.nextId)
    ∧ ((markMessageRead s mid).1.now = s.now)
    ∧ ((markMessageRead s mid).1.chatMessages.length = s.chatMessages.length)
    ∧ (∀ m, s.chatMessages.find? (fun x => x.id = mid) = some m →
        (markMessageRead s mid).1.chatMessages.find? (fun x => x.id = mid)
          = some { m with read := true })
    ∧ (∀ i, (markMessageRead s mid).1.chatMessages.get? i = s.chatMessages.get? i
        ∨ ∃ m, s.chatMessages.get? i = some m ∧ m.id = mid
            ∧ (markMessageRead s mid).1.chatMessages.get? i
                = some { m with read := true })
    ∧ ((markMessageRead (markMessageRead s mid).1 mid).1
        = (markMessageRead s mid).1) := by
  cases hf : s.chatMessages.find? (fun x => x.id = mid) with
  | none =>
    rw [markMessageRead_eq_none s mid hf]
    refine ⟨rfl, rfl, rfl, rfl, rfl, ?_, ?_, ?_⟩
    · intro m hm
      exact absurd hm (by simp)
    · intro i
      left
      rfl
    · show (markMessageRead s mid).1 = s
      rw [markMessageRead_eq_none s mid hf]
  | some m0 =>
    rw [markMessageRead_eq_some s mid m0 hf]
    refine ⟨rfl, rfl, rfl, rfl, setReadFirst_length _ _, ?_, ?_, ?_⟩
    · intro m hm
      cases hm
      exact setReadFirst_find _ _ _ hf
    · intro i
      exact setReadFirst_get s.chatMessages mid i
    · show (markMessageRead
          { s with chatMessages := setReadFirst s.chatMessages mid } mid).1
        = { s with chatMessages := setReadFirst s.chatMessages mid }
      rw [markMessageRead_eq_some _ mid { m0 with read := true }
          (setReadFirst_find _ _ _ hf)]
      dsimp only
      rw [setReadFirst_idem]

/-- C10, witness: mark the single concrete message of a one-message store,
whose read flag then flips to true. -/
theorem C10_mark_read_frame_witness :
    ((addMessage initialStore "ferry" none "hi" "text").1.chatMessages.find?
        (fun x => x.id = 0)
      = some
          { id := 0, fromAgentId := "ferry", toAgentId := none,
            content := "hi", messageType := "text", timestamp := 0,
            read := false })
    ∧ ((markMessageRead (addMessage initialStore "ferry" none "hi" "text").1
          0).1.chatMessages.find? (fun x => x.id = 0)
      = some
          { id := 0, fromAgentId := "ferry", toAgentId := none,
            content := "hi", messageType := "text", timestamp := 0,
            read := true }) := by
  refine ⟨by decide, ?_⟩
  exact (C10_mark_read_frame (addMessage initialStore "ferry" none "hi" "text").1
      0).2.2.2.2.2.1
    { id := 0, fromAgentId := "ferry", toAgentId := none,
      content := "hi", messageType := "text", timestamp := 0, read := false }
    (by decide)
